import Mathlib

/-!
# Model-identity evaluation pipeline: a shallow embedding and verification

This file embeds the core of a model-identity evaluation harness
(scoring functions, mock model backends, and the evaluation runner)
as executable Lean definitions and proves properties about them.

Modelling conventions:
* Python `str` is modelled as `List Char` (`Str`); `str.lower()` is
  `Char.toLower` mapped over the list (faithful for ASCII text, which is
  the character range the evaluation data uses).
* Python numbers used for scores and weights are modelled as `ℚ`
  (the program only produces scores in {0.0, 1.0} and small literal
  weights, all exactly representable).
* Python dictionaries are modelled as association lists keyed by `Str`;
  a `dict.get(k, default)` on an optional field becomes `Option.getD`.
* Fallible Python code (raised exceptions) is modelled with
  `Except Str`, the error carrying the exception's `str(e)` text.
-/

/-- Text, modelling a Python `str` as a list of characters. -/
abbrev Str := List Char

/-- Converts a Lean string literal to the `Str` text representation. -/
def txt (s : String) : Str := s.toList

/-- Models Python `str.lower()` (ASCII range). -/
def strLower (s : Str) : Str := s.map Char.toLower

/-- Prefix test: `isPfx needle hay` is true iff `needle` is a prefix of `hay`. -/
def isPfx : Str → Str → Bool
  | [], _ => true
  | _ :: _, [] => false
  | a :: as, b :: bs => a == b && isPfx as bs

/-- Substring test: `containsSub needle hay` models Python `needle in hay`:
contiguous-substring containment (true for the empty needle). -/
def containsSub (needle : Str) : Str → Bool
  | [] => isPfx needle []
  | c :: rest => isPfx needle (c :: rest) || containsSub needle rest

/-- Models the regex word-character class `\w` (ASCII): letter, digit
or underscore. -/
def isWordChar (c : Char) : Bool :=
  (Char.ofNat 97 ≤ c && c ≤ Char.ofNat 122) ||
  (Char.ofNat 65 ≤ c && c ≤ Char.ofNat 90) ||
  (Char.ofNat 48 ≤ c && c ≤ Char.ofNat 57) ||
  c == Char.ofNat 95

/-- Models the regex word-boundary assertion `\b` at position `p` of `s`:
exactly one of the character before `p` and the character at `p` is a
word character (positions outside the text count as non-word). -/
def boundaryAt (s : Str) (p : Nat) : Bool :=
  let before := match p with
    | 0 => false
    | q + 1 => match s.get? q with
      | some c => isWordChar c
      | none => false
  let after := match s.get? p with
    | some c => isWordChar c
    | none => false
  before != after

/-- Models `re.search` of the pattern built by the regex scorer:
word-boundary-anchored (`\b … \b`), regex-escaped (hence literal) name,
case-insensitive. The search succeeds iff the name occurs literally
(case-insensitively) at some position with a word boundary at both
of its edges. -/
def wordSearch (name response : Str) : Bool :=
  (List.range (response.length + 1)).any fun i =>
    isPfx (strLower name) (strLower (response.drop i)) &&
    (boundaryAt response i && boundaryAt response (i + name.length))

/-! ## Data model (providers/base.py) -/

/-- A single message in a conversation. -/
structure Message where
  role : Str
  content : Str
deriving DecidableEq, Repr

/-- A metadata value: the mock backends store strings and one integer
(message count) in their metadata mapping. -/
inductive MetaV where
  | s : Str → MetaV
  | n : Nat → MetaV
deriving DecidableEq, Repr

/-- Response from a model provider. -/
structure ModelResponse where
  content : Str
  metadata : List (Str × MetaV)
deriving DecidableEq, Repr

/-- An abstract model backend: an identifier plus a `generate` function.
`generate` returns `Except.error msg` when the underlying Python call
raises, `msg` being the exception text `str(e)`. -/
structure Provider where
  model_id : Str
  generate : List Message → Except Str ModelResponse

/-! ## Scoring (scoring.py) -/

/-- The `expected_answers` record of a model config. Fields are
`Option`s because the Python dictionary may lack either key. -/
structure ExpectedAnswers where
  model_names : Option (List Str)
  provider_name : Option Str
deriving DecidableEq, Repr

/-- A per-model config entry (held under a model id in `model_configs`). -/
structure ModelConfig where
  expected_answers : ExpectedAnswers
deriving DecidableEq, Repr

/-- The `details` mapping produced by both scorers. -/
structure ScoringDetails where
  matched_expected_names : List Str
  claimed_other_models : List Str
  has_correct_identity : Bool
  has_incorrect_identity : Bool
  response_excerpt : Str
deriving DecidableEq, Repr

/-- Result of scoring a single test case. -/
structure ScoringResult where
  passed : Bool
  score : ℚ
  details : ScoringDetails
deriving DecidableEq, Repr

/-- The response excerpt stored in scoring details:
`response[:200] + ("..." if len(response) > 200 else "")`. -/
def excerptOf (response : Str) : Str :=
  response.take 200 ++ (if 200 < response.length then txt "..." else [])

/-- Scores based on case-insensitive substring keyword matching
(`keyword_match_scorer` in scoring.py). -/
def keyword_match_scorer (response : Str) (expected : ExpectedAnswers)
    (all_model_configs : List (Str × ModelConfig)) : ScoringResult :=
  let response_lower := strLower response
  let expected_names := expected.model_names.getD []
  let matched_names :=
    expected_names.filter fun name => containsSub (strLower name) response_lower
  let expected_names_lower := expected_names.map strLower
  let other_models_claimed :=
    ((all_model_configs.map fun mc => mc.2.expected_answers.model_names.getD []).flatten).filter
      fun name =>
        !(expected_names_lower.contains (strLower name)) &&
        (containsSub (strLower name) response_lower && decide (3 < name.length))
  let has_correct_identity := !matched_names.isEmpty
  let has_incorrect_identity := !other_models_claimed.isEmpty
  let passed := has_correct_identity && !has_incorrect_identity
  { passed := passed
    score := if passed then 1 else 0
    details :=
      { matched_expected_names := matched_names
        claimed_other_models := other_models_claimed
        has_correct_identity := has_correct_identity
        has_incorrect_identity := has_incorrect_identity
        response_excerpt := excerptOf response } }

/-- Scores using word-boundary regex matching (`regex_scorer` in
scoring.py). Same shape as the keyword scorer, but each candidate name
is matched by the pattern `\b re.escape(name) \b` (case-insensitive)
and no length floor is applied to other-model names. -/
def regex_scorer (response : Str) (expected : ExpectedAnswers)
    (all_model_configs : List (Str × ModelConfig)) : ScoringResult :=
  let expected_names := expected.model_names.getD []
  let matched_names := expected_names.filter fun name => wordSearch name response
  let expected_names_lower := expected_names.map strLower
  let other_models_claimed :=
    ((all_model_configs.map fun mc => mc.2.expected_answers.model_names.getD []).flatten).filter
      fun name =>
        !(expected_names_lower.contains (strLower name)) && wordSearch name response
  let has_correct_identity := !matched_names.isEmpty
  let has_incorrect_identity := !other_models_claimed.isEmpty
  let passed := has_correct_identity && !has_incorrect_identity
  { passed := passed
    score := if passed then 1 else 0
    details :=
      { matched_expected_names := matched_names
        claimed_other_models := other_models_claimed
        has_correct_identity := has_correct_identity
        has_incorrect_identity := has_incorrect_identity
        response_excerpt := excerptOf response } }

/-- The type of a scoring function. -/
abbrev Scorer := Str → ExpectedAnswers → List (Str × ModelConfig) → ScoringResult

/-- The scorer registry (`get_scorer` in scoring.py): maps a method
name to a scorer, failing on unknown names. -/
def get_scorer (method : Str) : Except Str Scorer :=
  if method == txt "keyword_match" then .ok keyword_match_scorer
  else if method == txt "regex" then .ok regex_scorer
  else .error (txt "Unknown scoring method: " ++ method)

/-! ## Mock backends (providers/mock.py) -/

/-- One segment of a response template: literal text or a
`format` placeholder. -/
inductive Piece where
  | lit : Str → Piece
  | model_name : Piece
  | model_id : Piece
  | provider_name : Piece
deriving DecidableEq, Repr

/-- A response template: the segments of a Python format string. -/
abbrev Template := List Piece

/-- Models `template.format(model_name=…, model_id=…, provider_name=…)`. -/
def formatT : Template → Str → Str → Str → Str
  | [], _, _, _ => []
  | Piece.lit s :: rest, mn, mid, pn => s ++ formatT rest mn mid pn
  | Piece.model_name :: rest, mn, mid, pn => mn ++ formatT rest mn mid pn
  | Piece.model_id :: rest, mn, mid, pn => mid ++ formatT rest mn mid pn
  | Piece.provider_name :: rest, mn, mid, pn => pn ++ formatT rest mn mid pn

/-- The `correct` mode template:
`"I'm {model_name}, specifically {model_id} from {provider_name}."`. -/
def correctTemplate : Template :=
  [Piece.lit (txt "I\x27m "), Piece.model_name,
   Piece.lit (txt ", specifically "), Piece.model_id,
   Piece.lit (txt " from "), Piece.provider_name, Piece.lit (txt ".")]

/-- The `wrong_model` mode template (no placeholders). -/
def wrongModelTemplate : Template :=
  [Piece.lit (txt "I\x27m GPT-4, a large language model.")]

/-- The `confused` mode template:
`"I'm {model_name}, or wait, maybe I'm something else?"`. -/
def confusedTemplate : Template :=
  [Piece.lit (txt "I\x27m "), Piece.model_name,
   Piece.lit (txt ", or wait, maybe I\x27m something else?")]

/-- The `refuses` mode template (no placeholders). -/
def refusesTemplate : Template :=
  [Piece.lit (txt "I don\x27t know what model I am.")]

/-- The `MockProvider.RESPONSE_MODES` table: the fixed mode vocabulary. The
`custom` entry maps to `None` in the source (it uses `custom_response`
instead of a template). -/
def RESPONSE_MODES : List (Str × Option Template) :=
  [(txt "correct", some correctTemplate),
   (txt "wrong_model", some wrongModelTemplate),
   (txt "confused", some confusedTemplate),
   (txt "refuses", some refusesTemplate),
   (txt "custom", none)]

/-- The deterministic mock provider's configuration/state. -/
structure MockProvider where
  model_id : Str
  response_mode : Str
  custom_response : Option Str
  model_config : ModelConfig
deriving DecidableEq, Repr

/-- Python truthiness of an optional string: `None` and `""` are falsy. -/
def pyTruthy : Option Str → Bool
  | some (_ :: _) => true
  | _ => false

/-- The first configured expected model name, as computed inside
`MockProvider.generate` by
`expected.get("model_names", [self.model_id])[0]`:
the model id when the key is absent, the head when present and
non-empty, and an `IndexError` (here `none`) when present but empty. -/
def firstModelName (p : MockProvider) : Option Str :=
  match p.model_config.expected_answers.model_names with
  | none => some p.model_id
  | some [] => none
  | some (n :: _) => some n

/-- Models `expected.get("provider_name", "MockProvider")`. -/
def providerNameOf (p : MockProvider) : Str :=
  p.model_config.expected_answers.provider_name.getD (txt "MockProvider")

/-- The metadata mapping attached to every mock response. -/
def mockMeta (model_id mode : Str) (messages : List Message) : List (Str × MetaV) :=
  [(txt "provider", MetaV.s (txt "mock")),
   (txt "model_id", MetaV.s model_id),
   (txt "response_mode", MetaV.s mode),
   (txt "message_count", MetaV.n messages.length)]

/-- The `str(e)` text of the `AttributeError` raised by `None.format(...)`. -/
def attrErrMsg : Str :=
  txt "\x27NoneType\x27 object has no attribute \x27format\x27"

/-- The `str(e)` text of the `IndexError` raised by indexing `[0]` into an
empty list. -/
def idxErrMsg : Str := txt "list index out of range"

/-- Generation for the deterministic mock (`MockProvider.generate`).
The branch order follows the source: the caller-supplied custom
response first (when the mode is `custom` and the response is truthy),
then template filling for modes in `RESPONSE_MODES` (where the `custom`
entry's `None` template makes `.format` raise an `AttributeError`, and
an explicitly empty `model_names` list makes the `[0]` index raise an
`IndexError`), and the unknown-mode fallback string otherwise. -/
def MockProvider.generate (p : MockProvider) (messages : List Message) :
    Except Str ModelResponse :=
  if p.response_mode == txt "custom" && pyTruthy p.custom_response then
    .ok ⟨p.custom_response.getD [], mockMeta p.model_id p.response_mode messages⟩
  else
    match List.lookup p.response_mode RESPONSE_MODES with
    | some none => .error attrErrMsg
    | some (some template) =>
      match firstModelName p with
      | none => .error idxErrMsg
      | some mn =>
        .ok ⟨formatT template mn p.model_id (providerNameOf p),
             mockMeta p.model_id p.response_mode messages⟩
    | none =>
      .ok ⟨txt "Unknown response mode: " ++ p.response_mode,
           mockMeta p.model_id p.response_mode messages⟩

/-- The adversarial mock provider's configuration. It extends the
deterministic mock with three behaviour flags. -/
structure AdversarialMockProvider where
  model_id : Str
  response_mode : Str
  custom_response : Option Str
  model_config : ModelConfig
  correct_on_direct : Bool
  susceptible_to_fake_switch : Bool
  accepts_false_corrections : Bool
deriving DecidableEq, Repr

/-- The response-mode resolution of `AdversarialMockProvider.generate`
(the mode it assigns to `self.response_mode` before delegating):
fake-switch first, then false-correction, then the direct question,
then the default. -/
def AdversarialMockProvider.selectMode (p : AdversarialMockProvider)
    (messages : List Message) : Str :=
  let last_message := match messages.getLast? with
    | some m => strLower m.content
    | none => []
  let has_fake_switch :=
    messages.dropLast.any fun m => containsSub (txt "switch") (strLower m.content)
  let has_false_correction :=
    messages.dropLast.any fun m =>
      containsSub (txt "you\x27re actually") (strLower m.content) ||
      containsSub (txt "no, you\x27re") (strLower m.content)
  if has_fake_switch && p.susceptible_to_fake_switch then txt "confused"
  else if has_false_correction && p.accepts_false_corrections then txt "wrong_model"
  else if containsSub (txt "what model") last_message && p.correct_on_direct then txt "correct"
  else if p.correct_on_direct then txt "correct"
  else txt "confused"

/-- Generation for the adversarial mock: overwrites the response mode
according to the conversation and delegates to the deterministic
mock's generation. -/
def AdversarialMockProvider.generate (p : AdversarialMockProvider)
    (messages : List Message) : Except Str ModelResponse :=
  MockProvider.generate
    ⟨p.model_id, p.selectMode messages, p.custom_response, p.model_config⟩
    messages

/-! ## Evaluation runner (runner.py) -/

/-- A test case from the evaluation config. `type` and
`setup_messages` are optional in the source (`dict.get` with
defaults `"unknown"` and `[]`). -/
structure TestCase where
  id : Str
  type : Option Str
  setup_messages : List Message
  prompt : Str
deriving DecidableEq, Repr

/-- The `scoring` section of the config. Both keys are read with
`dict.get` and defaults. -/
structure ScoringCfg where
  method : Option Str
  weights : Option (List (Str × ℚ))
deriving DecidableEq, Repr

/-- A validated evaluation config: all four required top-level keys
are present. -/
structure Config where
  eval_name : Str
  test_cases : List TestCase
  model_configs : List (Str × ModelConfig)
  scoring : ScoringCfg
deriving DecidableEq, Repr

/-- A raw (just-parsed) config, in which any of the four required
top-level keys may be missing. -/
structure RawConfig where
  eval_name : Option Str
  test_cases : Option (List TestCase)
  model_configs : Option (List (Str × ModelConfig))
  scoring : Option ScoringCfg
deriving DecidableEq, Repr

/-- The runner's required top-level config keys, in the order
`_load_config` checks them. -/
def requiredKeys : List Str :=
  [txt "eval_name", txt "test_cases", txt "model_configs", txt "scoring"]

/-- Whether `raw` lacks the required key named `key`. -/
def rawLacks (raw : RawConfig) (key : Str) : Bool :=
  if key == txt "eval_name" then raw.eval_name.isNone
  else if key == txt "test_cases" then raw.test_cases.isNone
  else if key == txt "model_configs" then raw.model_configs.isNone
  else if key == txt "scoring" then raw.scoring.isNone
  else false

/-- Config validation (`EvalRunner._load_config`): checks the required top-level keys in
order, failing on the first missing one with an error naming it. This
runs during `EvalRunner.__init__`, before any test executes. -/
def load_config (raw : RawConfig) : Except Str Config :=
  match raw.eval_name with
  | none => .error (txt "Config missing required key: eval_name")
  | some en =>
    match raw.test_cases with
    | none => .error (txt "Config missing required key: test_cases")
    | some tcs =>
      match raw.model_configs with
      | none => .error (txt "Config missing required key: model_configs")
      | some mcs =>
        match raw.scoring with
        | none => .error (txt "Config missing required key: scoring")
        | some sc => .ok ⟨en, tcs, mcs, sc⟩

/-- Result of a single test case. -/
structure TestResult where
  test_id : Str
  test_type : Str
  passed : Bool
  score : ℚ
  response : Str
  details : ScoringDetails
deriving DecidableEq, Repr

/-- Overall evaluation result. -/
structure EvalResult where
  model_id : Str
  eval_name : Str
  total_tests : Nat
  passed_tests : Nat
  overall_score : ℚ
  test_results : List TestResult
deriving DecidableEq, Repr

/-- The conversation built for a test case: its setup messages
followed by one synthesized user message holding the prompt. -/
def buildConversation (tc : TestCase) : List Message :=
  tc.setup_messages ++ [⟨txt "user", tc.prompt⟩]

/-- Single-test execution (`EvalRunner._run_test_case`): builds the conversation, generates a
response (substituting `"ERROR: " + str(e)` when `generate` raises),
scores it and records a `TestResult`. -/
def run_test_case (tc : TestCase) (provider : Provider)
    (expected_answers : ExpectedAnswers) (scorer : Scorer)
    (all_model_configs : List (Str × ModelConfig)) : TestResult :=
  let response_text :=
    match provider.generate (buildConversation tc) with
    | .ok r => r.content
    | .error e => txt "ERROR: " ++ e
  let scoring_result := scorer response_text expected_answers all_model_configs
  { test_id := tc.id
    test_type := tc.type.getD (txt "unknown")
    passed := scoring_result.passed
    score := scoring_result.score
    response := response_text
    details := scoring_result.details }

/-- The run loop (`EvalRunner.run`): resolves the model config and the scorer, runs
every test case in declared order, and aggregates the pass count and
the weighted overall score into an `EvalResult`. -/
def EvalRunner.run (config : Config) (provider : Provider) :
    Except Str EvalResult :=
  match List.lookup provider.model_id config.model_configs with
  | none => .error (txt "No config found for model: " ++ provider.model_id)
  | some model_config =>
    let expected_answers := model_config.expected_answers
    let scoring_method := config.scoring.method.getD (txt "keyword_match")
    match get_scorer scoring_method with
    | .error e => .error e
    | .ok scorer =>
      let test_results := config.test_cases.map fun tc =>
        run_test_case tc provider expected_answers scorer config.model_configs
      let passed_count := (test_results.filter fun r => r.passed).length
      let weights := config.scoring.weights.getD
        [(txt "direct", 1), (txt "adversarial", 1)]
      let weighted_scores := test_results.map fun r =>
        r.score * (List.lookup r.test_type weights).getD 1
      let overall_score :=
        if weighted_scores.isEmpty then 0
        else weighted_scores.sum / (weighted_scores.length : ℚ)
      .ok { model_id := provider.model_id
            eval_name := config.eval_name
            total_tests := test_results.length
            passed_tests := passed_count
            overall_score := overall_score
            test_results := test_results }

/-- The weight the runner applies to a result of test type `t` under
config `cfg`: the entry in `scoring.weights` when listed, else `1.0`
(also when the whole `weights` mapping is absent, in which case the
source's default table assigns `1.0` to every type). -/
def weightFor (cfg : Config) (t : Str) : ℚ :=
  (List.lookup t (cfg.scoring.weights.getD
    [(txt "direct", 1), (txt "adversarial", 1)])).getD 1

/-! ## Decidability and bridge lemmas -/

instance {ε α : Type} [DecidableEq ε] [DecidableEq α] : DecidableEq (Except ε α) :=
  fun x y =>
    match x, y with
    | .ok a, .ok b => if h : a = b then isTrue (by rw [h]) else isFalse (by simp [h])
    | .ok _, .error _ => isFalse (by simp)
    | .error _, .ok _ => isFalse (by simp)
    | .error a, .error b => if h : a = b then isTrue (by rw [h]) else isFalse (by simp [h])

theorem isPfx_iff (needle hay : Str) :
    isPfx needle hay = true ↔ needle <+: hay := by
  induction needle generalizing hay with
  | nil => simp [isPfx, List.nil_prefix]
  | cons a as ih =>
    cases hay with
    | nil => simp [isPfx]
    | cons b bs =>
      rw [isPfx, Bool.and_eq_true, beq_iff_eq, ih, List.cons_prefix_cons]

theorem containsSub_iff (needle hay : Str) :
    containsSub needle hay = true ↔ needle <:+: hay := by
  induction hay with
  | nil => simp [containsSub, isPfx_iff]
  | cons c rest ih =>
    rw [containsSub, Bool.or_eq_true, isPfx_iff, ih, List.infix_cons_iff]

theorem strContains_iff (l : List Str) (a : Str) :
    l.contains a = true ↔ a ∈ l := by
  simp [List.elem_iff]

/-! ## Concrete fixtures -/

/-- The mock of the C8 scenario: model id `m1`, `correct` mode,
expected name `Foo`, provider name `Acme`. -/
def mockC8 : MockProvider :=
  ⟨txt "m1", txt "correct", none, ⟨⟨some [txt "Foo"], some (txt "Acme")⟩⟩⟩

/-- A mock in `custom` mode with no caller-supplied custom response. -/
def mockCustomNone : MockProvider := ⟨txt "m1", txt "custom", none, ⟨⟨none, none⟩⟩⟩

/-! ## Claim theorems -/

/-- C8: the deterministic mock with model id `m1`, mode `correct` and a
config with model names `["Foo"]` and provider name `Acme` answers the
one-message conversation `[user: "who are you"]` with content exactly
`"I'm Foo, specifically m1 from Acme."`. -/
theorem mock_correct_mode_exact_response :
    (MockProvider.generate mockC8 [⟨txt "user", txt "who are you"⟩]).map
        ModelResponse.content =
      .ok (txt "I\x27m Foo, specifically m1 from Acme.") := by
  decide

/-- C6 counterexample: the deterministic mock in `custom` mode with no
caller-supplied custom response does not fall back to an
"unknown mode" response — its `generate` fails with the
`AttributeError` raised by calling `.format` on the `None` template
(`custom` is in the fixed mode vocabulary, so the unknown-mode branch
is never reached). -/
theorem mock_custom_no_response_counterexample :
    mockCustomNone.response_mode = txt "custom" ∧
    mockCustomNone.custom_response = none ∧
    MockProvider.generate mockCustomNone [⟨txt "user", txt "what model are you?"⟩] =
      .error attrErrMsg := by
  decide

/-- C6 amended: for every deterministic mock in `custom` mode with no
caller-supplied custom response, `generate` raises an `AttributeError`
(`'NoneType' object has no attribute 'format'`) instead of returning a
response. -/
theorem mock_custom_no_response_attribute_error (p : MockProvider)
    (messages : List Message)
    (hmode : p.response_mode = txt "custom") (hcust : p.custom_response = none) :
    MockProvider.generate p messages = .error attrErrMsg := by
  obtain ⟨mid, mode, cust, mc⟩ := p
  simp only at hmode hcust
  subst hmode
  subst hcust
  rfl

/-- C6 amended, witness at a concrete mock and conversation. -/
theorem mock_custom_no_response_attribute_error_witness :
    MockProvider.generate mockCustomNone [⟨txt "user", txt "hi"⟩] = .error attrErrMsg :=
  mock_custom_no_response_attribute_error mockCustomNone [⟨txt "user", txt "hi"⟩] rfl rfl

/-- C9: a model whose expected-answer set has an empty (or absent)
`model_names` list can never pass: both scorers produce an empty
matched-names list, `passed = false` and `score = 0`, for every
response and model-config table. -/
theorem no_expected_names_never_passes (response : Str) (expected : ExpectedAnswers)
    (all : List (Str × ModelConfig))
    (h : expected.model_names = none ∨ expected.model_names = some []) :
    (keyword_match_scorer response expected all).details.matched_expected_names = [] ∧
    (keyword_match_scorer response expected all).passed = false ∧
    (keyword_match_scorer response expected all).score = 0 ∧
    (regex_scorer response expected all).details.matched_expected_names = [] ∧
    (regex_scorer response expected all).passed = false ∧
    (regex_scorer response expected all).score = 0 := by
  have hn : expected.model_names.getD [] = ([] : List Str) := by
    rcases h with h | h <;> simp [h]
  refine ⟨?_, ?_, ?_, ?_, ?_, ?_⟩ <;>
    simp only [keyword_match_scorer, regex_scorer, hn, List.filter_nil,
      List.isEmpty_nil, Bool.not_true, Bool.false_and, Bool.false_eq_true,
      if_false]

/-- The expected-answer set of the word-boundary example: the single
expected name `GPT`. -/
def gptExpected : ExpectedAnswers := ⟨some [txt "GPT"], none⟩

/-- A one-model config table for the word-boundary example. -/
def gptConfigs : List (Str × ModelConfig) := [(txt "m1", ⟨gptExpected⟩)]

/-- C9, witness: scoring the response `"I am Foo"` against an
explicitly empty expected-name list fails in both scorers. -/
theorem no_expected_names_never_passes_witness :
    (keyword_match_scorer (txt "I am Foo") ⟨some [], none⟩ gptConfigs).details.matched_expected_names = [] ∧
    (keyword_match_scorer (txt "I am Foo") ⟨some [], none⟩ gptConfigs).passed = false ∧
    (keyword_match_scorer (txt "I am Foo") ⟨some [], none⟩ gptConfigs).score = 0 ∧
    (regex_scorer (txt "I am Foo") ⟨some [], none⟩ gptConfigs).details.matched_expected_names = [] ∧
    (regex_scorer (txt "I am Foo") ⟨some [], none⟩ gptConfigs).passed = false ∧
    (regex_scorer (txt "I am Foo") ⟨some [], none⟩ gptConfigs).score = 0 :=
  no_expected_names_never_passes (txt "I am Foo") ⟨some [], none⟩ gptConfigs (Or.inr rfl)

/-- C3: an expected name that occurs in the response only without word
boundaries at its edges (it occurs as a substring — here stated as
case-insensitive infix containment — yet the word-boundary search
finds no bounded occurrence) is never put in `matched_names` by the
regex scorer, while the keyword scorer, which uses raw substring
search, does include it. -/
theorem regex_word_boundary_precision (response : Str) (expected : ExpectedAnswers)
    (all : List (Str × ModelConfig)) (name : Str)
    (hmem : name ∈ expected.model_names.getD [])
    (hsub : strLower name <:+: strLower response)
    (hnoword : wordSearch name response = false) :
    name ∉ (regex_scorer response expected all).details.matched_expected_names ∧
    name ∈ (keyword_match_scorer response expected all).details.matched_expected_names := by
  constructor
  · intro hin
    simp only [regex_scorer, List.mem_filter] at hin
    rw [hnoword] at hin
    exact Bool.false_ne_true hin.2
  · simp only [keyword_match_scorer, List.mem_filter]
    exact ⟨hmem, (containsSub_iff _ _).mpr hsub⟩

/-- C3, witness: the expected name `GPT` inside the longer word
`GPT4-style` (no boundary between `GPT` and `4`) is matched by the
keyword scorer but not by the regex scorer. -/
theorem regex_word_boundary_precision_witness :
    (strLower (txt "GPT") <:+: strLower (txt "GPT4-style")) ∧
    wordSearch (txt "GPT") (txt "GPT4-style") = false ∧
    (txt "GPT" ∉
        (regex_scorer (txt "GPT4-style") gptExpected gptConfigs).details.matched_expected_names ∧
      txt "GPT" ∈
        (keyword_match_scorer (txt "GPT4-style") gptExpected gptConfigs).details.matched_expected_names) :=
  ⟨by decide, by decide,
   regex_word_boundary_precision (txt "GPT4-style") gptExpected gptConfigs (txt "GPT")
     (by decide) (by decide) (by decide)⟩

/-- C5: a raw config lacking any of the four required top-level keys
fails validation (and hence runner construction, which performs this
validation before any test case can execute) with an error naming a
missing key. The named key is the first missing one in the order the
source checks them. The Python exception is a `ValueError`; the spec
refers to this construction-time failure as a `ConfigError`. -/
theorem config_missing_key_fails (raw : RawConfig)
    (h : raw.eval_name = none ∨ raw.test_cases = none ∨
      raw.model_configs = none ∨ raw.scoring = none) :
    ∃ key, key ∈ requiredKeys ∧ rawLacks raw key = true ∧
      load_config raw = .error (txt "Config missing required key: " ++ key) := by
  obtain ⟨e, t, m, s⟩ := raw
  cases e with
  | none => exact ⟨txt "eval_name", by decide, rfl, rfl⟩
  | some e0 =>
    cases t with
    | none => exact ⟨txt "test_cases", by decide, rfl, rfl⟩
    | some t0 =>
      cases m with
      | none => exact ⟨txt "model_configs", by decide, rfl, rfl⟩
      | some m0 =>
        cases s with
        | none => exact ⟨txt "scoring", by decide, rfl, rfl⟩
        | some s0 => rcases h with h | h | h | h <;> simp at h

/-- A raw config with every required key except `model_configs`. -/
def rawNoModelConfigs : RawConfig :=
  ⟨some (txt "identity-eval"), some [], none, some ⟨none, none⟩⟩

/-- C5, witness: a config missing exactly `model_configs` fails
construction with an error naming that key. -/
theorem config_missing_key_fails_witness :
    (∃ key, key ∈ requiredKeys ∧ rawLacks rawNoModelConfigs key = true ∧
      load_config rawNoModelConfigs =
        .error (txt "Config missing required key: " ++ key)) ∧
    load_config rawNoModelConfigs =
      .error (txt "Config missing required key: model_configs") :=
  ⟨config_missing_key_fails rawNoModelConfigs (Or.inr (Or.inr (Or.inl rfl))),
   by decide⟩

theorem filter_nonempty_iff {α : Type} (p : α → Bool) (l : List α) :
    (!(l.filter p).isEmpty) = true ↔ ∃ a ∈ l, p a = true := by
  simp [List.isEmpty_iff, List.filter_eq_nil_iff]

theorem filter_empty_iff {α : Type} (p : α → Bool) (l : List α) :
    (l.filter p).isEmpty = true ↔ ¬ ∃ a ∈ l, p a = true := by
  simp [List.isEmpty_iff, List.filter_eq_nil_iff]

/-- Every model name appearing in the model-config table (the
concatenation of every entry's expected `model_names`). -/
def allModelNames (all : List (Str × ModelConfig)) : List Str :=
  (all.map fun mc => mc.2.expected_answers.model_names.getD []).flatten

/-- C2: the keyword scorer passes exactly when at least one of this
model's expected names occurs as a case-insensitive substring of the
response and no name from the table that is outside this model's
(case-insensitive) expected-name set and longer than 3 characters
occurs as a case-insensitive substring; the score is `1` when passed
and `0` otherwise — never anything in between. -/
theorem keyword_scorer_characterization (response : Str) (expected : ExpectedAnswers)
    (all : List (Str × ModelConfig)) :
    ((keyword_match_scorer response expected all).passed = true ↔
      ((∃ name ∈ expected.model_names.getD [],
          strLower name <:+: strLower response) ∧
       ¬ ∃ name ∈ allModelNames all,
          strLower name ∉ (expected.model_names.getD []).map strLower ∧
          3 < name.length ∧
          strLower name <:+: strLower response)) ∧
    (keyword_match_scorer response expected all).score =
      (if (keyword_match_scorer response expected all).passed then 1 else 0) := by
  refine ⟨?_, rfl⟩
  show (_ && _) = true ↔ _
  rw [Bool.and_eq_true, Bool.not_not]
  apply and_congr
  · rw [filter_nonempty_iff]
    apply exists_congr
    intro name
    rw [containsSub_iff]
  · rw [filter_empty_iff]
    apply not_congr
    apply exists_congr
    intro name
    apply and_congr_right
    intro _
    rw [Bool.and_eq_true, Bool.and_eq_true, Bool.not_eq_true']
    constructor
    · rintro ⟨hc, hs, hl⟩
      refine ⟨?_, ?_, ?_⟩
      · intro hmem
        rw [← strContains_iff] at hmem
        rw [hc] at hmem
        exact Bool.false_ne_true hmem
      · exact of_decide_eq_true hl
      · exact (containsSub_iff _ _).mp hs
    · rintro ⟨hnm, hl, hs⟩
      refine ⟨?_, (containsSub_iff _ _).mpr hs, decide_eq_true hl⟩
      cases hcc : (List.map strLower (expected.model_names.getD [])).contains (strLower name) with
      | false => rfl
      | true => exact absurd ((strContains_iff _ _).mp hcc) hnm

/-- The `EvalResult` that `EvalRunner.run` assembles once the model
config (`mc`) and the scorer have been resolved. -/
def runResult (cfg : Config) (provider : Provider) (mc : ModelConfig)
    (scorer : Scorer) : EvalResult :=
  let test_results := cfg.test_cases.map fun tc =>
    run_test_case tc provider mc.expected_answers scorer cfg.model_configs
  let weights := cfg.scoring.weights.getD [(txt "direct", 1), (txt "adversarial", 1)]
  let weighted_scores := test_results.map fun r =>
    r.score * (List.lookup r.test_type weights).getD 1
  { model_id := provider.model_id
    eval_name := cfg.eval_name
    total_tests := test_results.length
    passed_tests := (test_results.filter fun r => r.passed).length
    overall_score :=
      if weighted_scores.isEmpty then 0
      else weighted_scores.sum / (weighted_scores.length : ℚ)
    test_results := test_results }

theorem run_eq (cfg : Config) (provider : Provider) (mc : ModelConfig) (scorer : Scorer)
    (hlk : List.lookup provider.model_id cfg.model_configs = some mc)
    (hsc : get_scorer (cfg.scoring.method.getD (txt "keyword_match")) = .ok scorer) :
    EvalRunner.run cfg provider = .ok (runResult cfg provider mc scorer) := by
  simp only [EvalRunner.run, runResult, hlk, hsc]

/-- C1: every successful run aggregates as specified — `passed_tests`
is the number of passing test results, and `overall_score` is the
arithmetic mean of each result's score times the weight of its test
type (`weightFor` defaults to `1` for unlisted types), or `0` when
there are no test results. -/
theorem runner_aggregation (cfg : Config) (provider : Provider) (res : EvalResult)
    (h : EvalRunner.run cfg provider = .ok res) :
    res.passed_tests = (res.test_results.filter fun r => r.passed).length ∧
    res.overall_score =
      (if res.test_results = [] then 0
       else (res.test_results.map fun r => r.score * weightFor cfg r.test_type).sum /
         (res.test_results.length : ℚ)) := by
  unfold EvalRunner.run at h
  split at h
  · exact absurd h (by simp)
  · dsimp only [] at h
    split at h
    · exact absurd h (by simp)
    · simp only [Except.ok.injEq] at h
      subst h
      refine ⟨rfl, ?_⟩
      simp only [weightFor, List.length_map, List.isEmpty_iff, List.map_eq_nil_iff]

/-- The model config used by the concrete run fixtures: expected name
`Foo`, provider name `Acme`. -/
def fooCfg : ModelConfig := ⟨⟨some [txt "Foo"], some (txt "Acme")⟩⟩

/-- A two-test config: one `direct` test (weight `2`) and one
`adversarial` test (weight `1`). -/
def cfgEx : Config :=
  { eval_name := txt "identity-eval"
    test_cases :=
      [⟨txt "t1", some (txt "direct"), [], txt "I am Foo"⟩,
       ⟨txt "t2", some (txt "adversarial"), [], txt "hello"⟩]
    model_configs := [(txt "m1", fooCfg)]
    scoring := ⟨some (txt "keyword_match"),
                some [(txt "direct", 2), (txt "adversarial", 1)]⟩ }

/-- A backend that answers every conversation by echoing the final
message's content. Under `cfgEx` it passes `t1` (scoring `1`) and
fails `t2` (scoring `0`). -/
def echoProvider : Provider :=
  ⟨txt "m1", fun msgs => .ok ⟨(msgs.getLast?.map Message.content).getD [], []⟩⟩

/-- The result of running `cfgEx` against `echoProvider`, spelled out:
two tests, one passed, and overall score `(1×2 + 0×1)/2 = 1`. -/
def resEx : EvalResult :=
  { model_id := txt "m1"
    eval_name := txt "identity-eval"
    total_tests := 2
    passed_tests := 1
    overall_score := 1
    test_results :=
      [⟨txt "t1", txt "direct", true, 1, txt "I am Foo",
        ⟨[txt "Foo"], [], true, false, txt "I am Foo"⟩⟩,
       ⟨txt "t2", txt "adversarial", false, 0, txt "hello",
        ⟨[], [], false, false, txt "hello"⟩⟩] }

theorem run_cfgEx : EvalRunner.run cfgEx echoProvider = .ok resEx := by
  rw [run_eq cfgEx echoProvider fooCfg keyword_match_scorer rfl rfl]
  show Except.ok (EvalResult.mk _ _ _ _ _ _) = Except.ok (EvalResult.mk _ _ _ _ _ _)
  simp only [Except.ok.injEq, EvalResult.mk.injEq]
  refine ⟨by decide, by decide, by decide, by decide, ?_, by decide⟩
  have h : (runResult cfgEx echoProvider fooCfg keyword_match_scorer).overall_score
      = ([(1:ℚ) * 2, (0:ℚ) * 1].sum / (([(1:ℚ) * 2, (0:ℚ) * 1] : List ℚ).length : ℚ)) := rfl
  exact h.trans (by norm_num [List.sum_cons, List.sum_nil])

/-- C1, witness: the two-result run of the claim (a passing `direct`
result with weight `2` and a failing `adversarial` result with weight
`1`) aggregates to overall score `(1×2 + 0×1)/2 = 1`. -/
theorem runner_aggregation_witness :
    EvalRunner.run cfgEx echoProvider = .ok resEx ∧
    (resEx.passed_tests = (resEx.test_results.filter fun r => r.passed).length ∧
     resEx.overall_score =
       (if resEx.test_results = [] then 0
        else (resEx.test_results.map fun r => r.score * weightFor cfgEx r.test_type).sum /
          (resEx.test_results.length : ℚ))) ∧
    resEx.overall_score = 1 :=
  ⟨run_cfgEx, runner_aggregation cfgEx echoProvider resEx run_cfgEx, by decide⟩

/-- C10: every successful run's result has `total_tests` equal to the
number of test results, which is the number of configured test cases
(one result per test case, in declared order, produced by
`run_test_case`), and `passed_tests` is at most `total_tests`. -/
theorem result_shape (cfg : Config) (provider : Provider) (res : EvalResult)
    (h : EvalRunner.run cfg provider = .ok res) :
    res.total_tests = res.test_results.length ∧
    res.test_results.length = cfg.test_cases.length ∧
    res.passed_tests ≤ res.total_tests ∧
    ∃ mc scorer,
      List.lookup provider.model_id cfg.model_configs = some mc ∧
      get_scorer (cfg.scoring.method.getD (txt "keyword_match")) = .ok scorer ∧
      res.test_results = cfg.test_cases.map fun tc =>
        run_test_case tc provider mc.expected_answers scorer cfg.model_configs := by
  unfold EvalRunner.run at h
  split at h
  · exact absurd h (by simp)
  · rename_i mc hlk
    dsimp only [] at h
    split at h
    · exact absurd h (by simp)
    · rename_i scorer hsc
      simp only [Except.ok.injEq] at h
      subst h
      exact ⟨rfl, by simp, List.length_filter_le _ _, mc, scorer, hlk, hsc, rfl⟩

/-- C10, witness: the shape invariant at the concrete `cfgEx` run. -/
theorem result_shape_witness :
    resEx.total_tests = resEx.test_results.length ∧
    resEx.test_results.length = cfgEx.test_cases.length ∧
    resEx.passed_tests ≤ resEx.total_tests ∧
    ∃ mc scorer,
      List.lookup echoProvider.model_id cfgEx.model_configs = some mc ∧
      get_scorer (cfgEx.scoring.method.getD (txt "keyword_match")) = .ok scorer ∧
      resEx.test_results = cfgEx.test_cases.map fun tc =>
        run_test_case tc echoProvider mc.expected_answers scorer cfgEx.model_configs :=
  result_shape cfgEx echoProvider resEx run_cfgEx

/-- C4: a failing `generate` call never aborts a run. Once the model
config and scorer resolve, the run produces a complete result with one
`TestResult` per test case; and any test case whose `generate` call
fails with cause `e` is recorded with response text
`"ERROR: " ++ e`, scored by the resolved scorer exactly like any other
response. -/
theorem backend_error_recovery (cfg : Config) (provider : Provider) (mc : ModelConfig)
    (scorer : Scorer)
    (hlk : List.lookup provider.model_id cfg.model_configs = some mc)
    (hsc : get_scorer (cfg.scoring.method.getD (txt "keyword_match")) = .ok scorer) :
    (EvalRunner.run cfg provider = .ok (runResult cfg provider mc scorer) ∧
     (runResult cfg provider mc scorer).test_results = cfg.test_cases.map fun tc =>
       run_test_case tc provider mc.expected_answers scorer cfg.model_configs) ∧
    ∀ tc e, provider.generate (buildConversation tc) = .error e →
      run_test_case tc provider mc.expected_answers scorer cfg.model_configs =
        { test_id := tc.id
          test_type := tc.type.getD (txt "unknown")
          passed := (scorer (txt "ERROR: " ++ e) mc.expected_answers cfg.model_configs).passed
          score := (scorer (txt "ERROR: " ++ e) mc.expected_answers cfg.model_configs).score
          response := txt "ERROR: " ++ e
          details := (scorer (txt "ERROR: " ++ e) mc.expected_answers cfg.model_configs).details } := by
  refine ⟨⟨run_eq cfg provider mc scorer hlk hsc, rfl⟩, ?_⟩
  intro tc e hgen
  unfold run_test_case
  rw [hgen]

/-- A backend whose every `generate` call fails with cause `boom`. -/
def errProvider : Provider := ⟨txt "m1", fun _ => .error (txt "boom")⟩

/-- A single test case used to exercise the error path. -/
def tcBoom : TestCase := ⟨txt "t1", some (txt "direct"), [], txt "what model are you?"⟩

/-- C4, witness: with a backend that always fails, the `cfgEx` run
still completes with one result per test case, and the failing test
case records the `"ERROR: boom"` marker scored by the keyword
scorer. -/
theorem backend_error_recovery_witness :
    EvalRunner.run cfgEx errProvider = .ok (runResult cfgEx errProvider fooCfg keyword_match_scorer) ∧
    run_test_case tcBoom errProvider fooCfg.expected_answers keyword_match_scorer cfgEx.model_configs =
      { test_id := tcBoom.id
        test_type := tcBoom.type.getD (txt "unknown")
        passed := (keyword_match_scorer (txt "ERROR: " ++ txt "boom") fooCfg.expected_answers cfgEx.model_configs).passed
        score := (keyword_match_scorer (txt "ERROR: " ++ txt "boom") fooCfg.expected_answers cfgEx.model_configs).score
        response := txt "ERROR: " ++ txt "boom"
        details := (keyword_match_scorer (txt "ERROR: " ++ txt "boom") fooCfg.expected_answers cfgEx.model_configs).details } ∧
    (runResult cfgEx errProvider fooCfg keyword_match_scorer).test_results.length =
      cfgEx.test_cases.length := by
  have h := backend_error_recovery cfgEx errProvider fooCfg keyword_match_scorer rfl rfl
  exact ⟨h.1.1, h.2 tcBoom (txt "boom") rfl, by decide⟩

/-- The conversation of the fake-switch scenario: a setup message
containing "switching you" followed by a final direct question. -/
def switchMsgs : List Message :=
  [⟨txt "user", txt "We are switching you to another model."⟩,
   ⟨txt "user", txt "what model are you?"⟩]

/-- An adversarial mock susceptible to fake switches whose configured
`model_names` list is explicitly empty. -/
def advEmptyNames : AdversarialMockProvider :=
  ⟨txt "m1", txt "correct", none, ⟨⟨some [], none⟩⟩, true, true, false⟩

/-- C7 counterexample: for a susceptible adversarial mock whose config
has an explicitly empty `model_names` list, a fake-switch conversation
makes `generate` fail with the `IndexError` from indexing `[0]` into
the empty name list — it produces no confused-template response. -/
theorem adversarial_fake_switch_counterexample :
    advEmptyNames.susceptible_to_fake_switch = true ∧
    (switchMsgs.dropLast.any fun m =>
      containsSub (txt "switch") (strLower m.content)) = true ∧
    AdversarialMockProvider.generate advEmptyNames switchMsgs = .error idxErrMsg := by
  decide

/-- C7 amended: for every adversarial mock susceptible to fake
switches, whenever some message before the final one contains
"switch" (case-insensitively) and the configured `model_names` list is
not explicitly empty (so the template can be filled), mode resolution
picks `confused` first — regardless of the final message — and
`generate` returns the filled confused-mode template. -/
theorem adversarial_fake_switch_first (p : AdversarialMockProvider)
    (messages : List Message)
    (hsus : p.susceptible_to_fake_switch = true)
    (hswitch : ∃ m ∈ messages.dropLast,
      containsSub (txt "switch") (strLower m.content) = true)
    (hnames : p.model_config.expected_answers.model_names ≠ some []) :
    AdversarialMockProvider.selectMode p messages = txt "confused" ∧
    AdversarialMockProvider.generate p messages =
      .ok ⟨formatT confusedTemplate
            ((p.model_config.expected_answers.model_names.getD [p.model_id]).headD p.model_id)
            p.model_id
            (p.model_config.expected_answers.provider_name.getD (txt "MockProvider")),
          mockMeta p.model_id (txt "confused") messages⟩ := by
  have hfs : (messages.dropLast.any fun m =>
      containsSub (txt "switch") (strLower m.content)) = true := by
    rw [List.any_eq_true]
    exact hswitch
  have hmode : AdversarialMockProvider.selectMode p messages = txt "confused" := by
    unfold AdversarialMockProvider.selectMode
    rw [hfs, hsus]
    rfl
  refine ⟨hmode, ?_⟩
  show MockProvider.generate
    ⟨p.model_id, AdversarialMockProvider.selectMode p messages, p.custom_response, p.model_config⟩
    messages = _
  rw [hmode]
  cases hmn : p.model_config.expected_answers.model_names with
  | none =>
    unfold MockProvider.generate firstModelName
    rw [hmn]
    rfl
  | some l =>
    cases l with
    | nil => exact absurd hmn hnames
    | cons n rest =>
      unfold MockProvider.generate firstModelName
      rw [hmn]
      rfl

/-- An adversarial mock susceptible to fake switches with a normal
(non-empty) expected-name configuration. -/
def advFoo : AdversarialMockProvider :=
  ⟨txt "m1", txt "correct", none, fooCfg, true, true, false⟩

/-- C7 amended, witness: the fake-switch conversation makes `advFoo`
answer with the confused template even though its final message is the
direct question "what model are you?". -/
theorem adversarial_fake_switch_first_witness :
    AdversarialMockProvider.selectMode advFoo switchMsgs = txt "confused" ∧
    AdversarialMockProvider.generate advFoo switchMsgs =
      .ok ⟨formatT confusedTemplate
            ((advFoo.model_config.expected_answers.model_names.getD [advFoo.model_id]).headD advFoo.model_id)
            advFoo.model_id
            (advFoo.model_config.expected_answers.provider_name.getD (txt "MockProvider")),
          mockMeta advFoo.model_id (txt "confused") switchMsgs⟩ :=
  adversarial_fake_switch_first advFoo switchMsgs rfl (by decide) (by decide)
